import Mathlib

/-!
Shallow embedding of the zk-token-proof instruction processor
(`src/programs/zk-token-proof/src/lib.rs`): the proof-context account
lifecycle and the instruction-dispatch state machine, together with proofs
of the lifecycle, error-ordering and atomicity properties of the processor.

Machine bytes are `Nat`, byte strings are `List Nat`, and account
identities (public keys) are byte strings of length 32.  The opaque
cryptographic verifier, the context-state codec and the wire tag of the
instruction enum live in the `solana_zk_token_sdk` crate, outside the
sources; they are modelled from the specification where marked.
-/

namespace ZkTokenProof

/-- An account identity (public key): a byte string, well formed at 32 bytes. -/
abbrev Pubkey := List Nat

/-- The instruction errors this processor can surface
(`solana_sdk::instruction::InstructionError`, restricted to the variants
reachable from `lib.rs`). -/
inductive InstructionError where
  | InvalidInstructionData
  | InvalidAccountOwner
  | AccountAlreadyInitialized
  | InvalidAccountData
  | MissingRequiredSignature
  | UnsupportedProgramId
  | NotEnoughAccountKeys
  | ArithmeticOverflow
  | ComputationalBudgetExceeded
  deriving DecidableEq, Repr

/-- The closed registry of proof kinds (`ProofType` of the zk-token SDK),
with `Uninitialized` as the sentinel for a not-yet-created context record. -/
inductive ProofType where
  | Uninitialized
  | CloseAccount
  | Withdraw
  | WithdrawWithheldTokens
  | Transfer
  | TransferWithFee
  | PubkeyValidity
  deriving DecidableEq, Repr

/-- Modelled from the spec: the one-byte tag of a proof kind inside an
encoded context record; `Uninitialized` is the zero sentinel. -/
def ProofType.tag : ProofType → Nat
  | .Uninitialized => 0
  | .CloseAccount => 1
  | .Withdraw => 2
  | .WithdrawWithheldTokens => 3
  | .Transfer => 4
  | .TransferWithFee => 5
  | .PubkeyValidity => 6

/-- Modelled from the spec: the partial inverse of `ProofType.tag`. -/
def proofTypeOfTag : Nat → Option ProofType
  | 0 => some .Uninitialized
  | 1 => some .CloseAccount
  | 2 => some .Withdraw
  | 3 => some .WithdrawWithheldTokens
  | 4 => some .Transfer
  | 5 => some .TransferWithFee
  | 6 => some .PubkeyValidity
  | _ => none

/-- An instruction account as the processor observes it: its identity, the
identity of its owner program, its lamport balance, its data bytes, and
whether it co-signed the transaction. -/
structure Account where
  key : Pubkey
  owner : Pubkey
  lamports : Nat
  data : List Nat
  is_signer : Bool
  deriving DecidableEq, Repr

/-- The transaction-scoped state one instruction invocation can observe and
mutate: the instruction accounts (by instruction-account index) and the
remaining compute budget. -/
structure Pstate where
  accounts : List Account
  computeBudget : Nat
  deriving DecidableEq, Repr

/-- The 33-byte header of an encoded context record: the close authority
followed by the one-byte proof-type tag (`ProofContextStateMeta`). -/
structure ProofContextStateMeta where
  context_state_authority : Pubkey
  proof_type : Nat
  deriving DecidableEq, Repr

/-- Modelled from the spec: `ProofContextStateMeta::try_from_bytes` (the
codec lives in the zk-token SDK, outside the sources).  It reads the 33-byte
header — 32 authority bytes then the raw tag byte, which it does not range
check — and fails with `InvalidAccountData` when the bytes are too short. -/
def ProofContextStateMeta.try_from_bytes (bytes : List Nat) :
    Except InstructionError ProofContextStateMeta :=
  match bytes[32]? with
  | some t => .ok ⟨bytes.take 32, t⟩
  | none => .error .InvalidAccountData

/-- Modelled from the spec: `ProofContextState::encode` — the deterministic
byte layout of a context record: authority, proof-type tag, then the
fixed-size proof-specific context payload. -/
def ProofContextState.encode (authority : Pubkey) (pt : ProofType)
    (contextData : List Nat) : List Nat :=
  authority ++ pt.tag :: contextData

/-- Modelled from the spec: the full decoder of a context record, the
inverse direction of the codec round-trip law. -/
def ProofContextState.decode (bytes : List Nat) :
    Option (Pubkey × ProofType × List Nat) :=
  match bytes[32]? with
  | some t => (proofTypeOfTag t).map fun pt => (bytes.take 32, pt, bytes.drop 33)
  | none => none

/-- Modelled from the spec: the outcome of the opaque proof collaborator on
the current instruction data — whether the data parses to the expected proof
shape, whether the verifier accepts it, and the verified result's
`context_data()` bytes. -/
structure VerifyOracle where
  parseOk : Bool
  verifyOk : Bool
  contextData : List Nat
  deriving DecidableEq, Repr

/-- `process_verify_proof` (`lib.rs` lines 18–70): parse the proof data,
verify it, and — when at least one instruction account was supplied —
materialize a context record into account 0 with account 1's key as its
authority, after the ownership, uninitialized-sentinel and exact-length
checks.  Errors always return the incoming state unchanged; the single
write happens in the final branch. -/
def processVerifyProof (o : VerifyOracle) (pt : ProofType) (programId : Pubkey)
    (s : Pstate) : Except InstructionError Unit × Pstate :=
  if o.parseOk = false then (.error .InvalidInstructionData, s)
  else if o.verifyOk = false then (.error .InvalidInstructionData, s)
  else if 0 < s.accounts.length then
    match s.accounts[1]? with
    | none => (.error .NotEnoughAccountKeys, s)
    | some authorityAccount =>
      match s.accounts[0]? with
      | none => (.error .NotEnoughAccountKeys, s)
      | some proofContextAccount =>
        if proofContextAccount.owner ≠ programId then
          (.error .InvalidAccountOwner, s)
        else
          match ProofContextStateMeta.try_from_bytes proofContextAccount.data with
          | .error e => (.error e, s)
          | .ok meta =>
            if meta.proof_type ≠ ProofType.Uninitialized.tag then
              (.error .AccountAlreadyInitialized, s)
            else
              let contextStateData :=
                ProofContextState.encode authorityAccount.key pt o.contextData
              if proofContextAccount.data.length ≠ contextStateData.length then
                (.error .InvalidAccountData, s)
              else
                let updated := { proofContextAccount with data := contextStateData }
                (.ok (), { s with accounts := s.accounts.set 0 updated })
  else (.ok (), s)

/-- `process_close_proof_context` (`lib.rs` lines 72–114): account 2 must
sign, accounts 0 and 1 must be distinct, account 2's key must equal the
stored authority of account 0's decoded header; then account 0's balance
moves to account 1 and account 0 is destroyed (zero balance, empty data,
ownership reassigned to the system program).  The guard that account 0 is
owned by this program is modelled from the spec: in the sources it is
enforced by the runtime's account primitives, which refuse the debit and
data change of a foreign account, rolling the instruction back. -/
def processCloseProofContext (programId systemId : Pubkey) (s : Pstate) :
    Except InstructionError Unit × Pstate :=
  match s.accounts[2]? with
  | none => (.error .NotEnoughAccountKeys, s)
  | some ownerAccount =>
    if ownerAccount.is_signer = false then (.error .MissingRequiredSignature, s)
    else
      match s.accounts[0]? with
      | none => (.error .NotEnoughAccountKeys, s)
      | some proofContextAccount =>
        match s.accounts[1]? with
        | none => (.error .NotEnoughAccountKeys, s)
        | some destinationAccount =>
          if proofContextAccount.key = destinationAccount.key then
            (.error .InvalidInstructionData, s)
          else
            match ProofContextStateMeta.try_from_bytes proofContextAccount.data with
            | .error e => (.error e, s)
            | .ok meta =>
              if ownerAccount.key ≠ meta.context_state_authority then
                (.error .InvalidAccountOwner, s)
              else if proofContextAccount.owner ≠ programId then
                (.error .InvalidAccountOwner, s)
              else if 2 ^ 64 ≤ destinationAccount.lamports + proofContextAccount.lamports then
                (.error .ArithmeticOverflow, s)
              else
                let credited := { destinationAccount with
                  lamports := destinationAccount.lamports + proofContextAccount.lamports }
                let destroyed := { proofContextAccount with
                  lamports := 0, data := ([] : List Nat), owner := systemId }
                (.ok (), { s with accounts := (s.accounts.set 1 credited).set 0 destroyed })

/-- The state produced by a successful context creation: account 0's data
replaced by the freshly encoded record (the single write of the verify
path). -/
def verifySuccessState (o : VerifyOracle) (pt : ProofType) (a0 a1 : Account)
    (s : Pstate) : Pstate :=
  let updated := { a0 with data := ProofContextState.encode a1.key pt o.contextData }
  { s with accounts := s.accounts.set 0 updated }

/-- The state produced by a successful close: account 1 credited with
account 0's balance, account 0 destroyed (zero balance, empty data, system
ownership). -/
def closeSuccessState (systemId : Pubkey) (a0 a1 : Account) (s : Pstate) : Pstate :=
  let credited := { a1 with lamports := a1.lamports + a0.lamports }
  let destroyed := { a0 with lamports := 0, data := ([] : List Nat), owner := systemId }
  { s with accounts := (s.accounts.set 1 credited).set 0 destroyed }

/-- The instruction enum of the program (`ProofInstruction` of the SDK). -/
inductive ProofInstruction where
  | CloseContextState
  | VerifyCloseAccount
  | VerifyWithdraw
  | VerifyWithdrawWithheldTokens
  | VerifyTransfer
  | VerifyTransferWithFee
  | VerifyPubkeyValidity
  deriving DecidableEq, Repr

/-- Modelled from the spec: `ProofInstruction::instruction_type` reads the
leading tag byte of the instruction data; an unrecognized or missing tag
yields `none`. -/
def ProofInstruction.instruction_type (instructionData : List Nat) :
    Option ProofInstruction :=
  match instructionData[0]? with
  | some 0 => some .CloseContextState
  | some 1 => some .VerifyCloseAccount
  | some 2 => some .VerifyWithdraw
  | some 3 => some .VerifyWithdrawWithheldTokens
  | some 4 => some .VerifyTransfer
  | some 5 => some .VerifyTransferWithFee
  | some 6 => some .VerifyPubkeyValidity
  | _ => none

/-- `TRANSACTION_LEVEL_STACK_HEIGHT` of the SDK: the stack height of a
top-level (outermost) instruction. -/
def TRANSACTION_LEVEL_STACK_HEIGHT : Nat := 1

/-- `process_instruction` (`lib.rs` lines 116–166): refuse nested calls
with `UnsupportedProgramId`, charge the fixed 100000-unit compute cost,
parse the instruction tag, and route to the close or verify handler. -/
def processInstruction (o : VerifyOracle) (programId systemId : Pubkey)
    (stackHeight : Nat) (instructionData : List Nat) (s : Pstate) :
    Except InstructionError Unit × Pstate :=
  if stackHeight ≠ TRANSACTION_LEVEL_STACK_HEIGHT then
    (.error .UnsupportedProgramId, s)
  else if s.computeBudget < 100000 then
    (.error .ComputationalBudgetExceeded, s)
  else
    let s1 : Pstate := { s with computeBudget := s.computeBudget - 100000 }
    match ProofInstruction.instruction_type instructionData with
    | none => (.error .InvalidInstructionData, s1)
    | some .CloseContextState => processCloseProofContext programId systemId s1
    | some .VerifyCloseAccount => processVerifyProof o .CloseAccount programId s1
    | some .VerifyWithdraw => processVerifyProof o .Withdraw programId s1
    | some .VerifyWithdrawWithheldTokens =>
        processVerifyProof o .WithdrawWithheldTokens programId s1
    | some .VerifyTransfer => processVerifyProof o .Transfer programId s1
    | some .VerifyTransferWithFee => processVerifyProof o .TransferWithFee programId s1
    | some .VerifyPubkeyValidity => processVerifyProof o .PubkeyValidity programId s1

/-- Equality of fallible results is decidable, so witnesses can be checked
by evaluation. -/
instance (ε α : Type) [DecidableEq ε] [DecidableEq α] : DecidableEq (Except ε α) :=
  fun x y =>
    match x, y with
    | .ok a, .ok b =>
        if h : a = b then .isTrue (by rw [h]) else .isFalse (by simp [h])
    | .error a, .error b =>
        if h : a = b then .isTrue (by rw [h]) else .isFalse (by simp [h])
    | .ok _, .error _ => .isFalse (fun h => Except.noConfusion h)
    | .error _, .ok _ => .isFalse (fun h => Except.noConfusion h)

/-- Fixture: a program identity used by the concrete witnesses. -/
def samplePid : Pubkey := [9]

/-- Fixture: a system-program identity used by the concrete witnesses. -/
def sampleSys : Pubkey := [8]

/-- Fixture: a 32-byte authority key. -/
def authKey32 : Pubkey := List.replicate 32 3

/-- Fixture: an oracle whose proof data parses and verifies, with an empty
context payload. -/
def okOracle : VerifyOracle := ⟨true, true, []⟩

/-- Fixture: the 33 bytes of an uninitialized context record. -/
def uninitData : List Nat := List.replicate 32 0 ++ [0]

/-- Fixture: 33 bytes of an already-initialized context record (tag 1),
whose stored authority is the all-zero key. -/
def initData : List Nat := List.replicate 32 0 ++ [1]

/-- Fixture: a program-owned uninitialized context account. -/
def ctxUninit : Account := ⟨[2], samplePid, 5, uninitData, false⟩

/-- Fixture: a program-owned already-initialized context account. -/
def ctxInit : Account := ⟨[2], samplePid, 5, initData, false⟩

/-- Fixture: a context account holding a record whose stored authority is
`authKey32` (tag `Transfer`, empty payload). -/
def ctxStored : Account := ⟨[2], samplePid, 5, authKey32 ++ [4], false⟩

/-- Fixture: the authority account; deliberately not a signer. -/
def authAccount : Account := ⟨authKey32, [7], 2, [], false⟩

/-- Fixture: a signing account whose key matches no stored authority. -/
def signerAccount : Account := ⟨[5], [7], 0, [], true⟩

/-- Fixture: the same key as `signerAccount` but without a signature. -/
def nonSignerAccount : Account := ⟨[5], [7], 0, [], false⟩

/-- Fixture: a refund destination account. -/
def destAccount : Account := ⟨[3], [7], 10, [], false⟩

/-- Fixture: the authority account in its signing variant. -/
def authSigner : Account := ⟨authKey32, [7], 2, [], true⟩

/-- Fixture: a context account with the stored record but a foreign owner. -/
def ctxForeign : Account := ⟨[2], [7], 5, authKey32 ++ [4], false⟩

/-- Fixture: a program-owned uninitialized account one byte too long. -/
def ctxLong : Account := ⟨[2], samplePid, 5, List.replicate 32 0 ++ [0, 0], false⟩

/-- Fixture: creation-mode state with an uninitialized context account. -/
def sUninit : Pstate := ⟨[ctxUninit, authAccount], 0⟩

/-- Fixture: creation-mode state with an already-initialized context account. -/
def sInit : Pstate := ⟨[ctxInit, authAccount], 0⟩

/-- Fixture: the state `sUninit` after a successful `Transfer` creation. -/
def sAfter : Pstate := ⟨[ctxStored, authAccount], 0⟩

/-- Fixture: close-mode state signed by the stored authority. -/
def sCloseOk : Pstate := ⟨[ctxStored, destAccount, authSigner], 0⟩

/-- Fixture: close-mode state whose account 2 did not sign. -/
def sCloseNonSigner : Pstate := ⟨[ctxStored, destAccount, nonSignerAccount], 0⟩

/-- Fixture: close-mode state signed by a key other than the stored
authority. -/
def sCloseWrongAuth : Pstate := ⟨[ctxStored, destAccount, signerAccount], 0⟩

/-! ### Helper lemmas -/

/-- A failing verify call hands back the incoming state. -/
theorem processVerifyProof_error_eq (o : VerifyOracle) (pt : ProofType)
    (programId : Pubkey) (s s' : Pstate) (e : InstructionError)
    (h : processVerifyProof o pt programId s = (.error e, s')) : s' = s := by
  unfold processVerifyProof at h
  repeat' split at h
  all_goals simp_all
  all_goals split at h
  all_goals simp_all

/-- A failing close call hands back the incoming state. -/
theorem processCloseProofContext_error_eq (programId systemId : Pubkey)
    (s s' : Pstate) (e : InstructionError)
    (h : processCloseProofContext programId systemId s = (.error e, s')) : s' = s := by
  unfold processCloseProofContext at h
  repeat' split at h
  all_goals simp_all

/-- Inversion of a successful close: every validation must have passed, and
the final state is exactly the credited-and-destroyed one. -/
theorem close_ok_spec (programId systemId : Pubkey) (s s' : Pstate)
    (h : processCloseProofContext programId systemId s = (.ok (), s')) :
    ∃ c a0 a1 m, s.accounts[2]? = some c ∧ s.accounts[0]? = some a0 ∧
      s.accounts[1]? = some a1 ∧ c.is_signer = true ∧ a0.key ≠ a1.key ∧
      ProofContextStateMeta.try_from_bytes a0.data = Except.ok m ∧
      c.key = m.context_state_authority ∧ a0.owner = programId ∧
      a1.lamports + a0.lamports < 2 ^ 64 ∧
      s' = closeSuccessState systemId a0 a1 s := by
  unfold processCloseProofContext at h
  repeat' split at h
  all_goals try exact Except.noConfusion (congrArg Prod.fst h)
  rename_i xc c hc hsig x0 a0 h0 x1 a1 h1 hkey xm m hm hauth hown hlam
  refine ⟨c, a0, a1, m, hc, h0, h1, ?_, hkey, hm, not_not.mp hauth, not_not.mp hown,
    lt_of_not_le hlam, (congrArg Prod.snd h).symm⟩
  simpa using hsig

/-- Inversion of a successful verify: either the verify-only mode ran (no
accounts, no effect), or every creation-mode validation passed and the
final state is exactly the one with the record written into account 0. -/
theorem verify_ok_spec (o : VerifyOracle) (pt : ProofType) (programId : Pubkey)
    (s s' : Pstate) (h : processVerifyProof o pt programId s = (.ok (), s')) :
    o.parseOk = true ∧ o.verifyOk = true ∧
    ((s.accounts.length = 0 ∧ s' = s) ∨
      (∃ a0 a1 m, s.accounts[0]? = some a0 ∧ s.accounts[1]? = some a1 ∧
        a0.owner = programId ∧
        ProofContextStateMeta.try_from_bytes a0.data = Except.ok m ∧
        m.proof_type = ProofType.Uninitialized.tag ∧
        a0.data.length = (ProofContextState.encode a1.key pt o.contextData).length ∧
        s' = verifySuccessState o pt a0 a1 s)) := by
  unfold processVerifyProof at h
  repeat' split at h
  all_goals try (dsimp only [] at h)
  all_goals try (split at h)
  all_goals try exact Except.noConfusion (congrArg Prod.fst h)
  · rename_i hp hv hlen x1 a1 h1 x0 a0 h0 hown xm m hm hpt hlenEq
    refine ⟨by simpa using hp, by simpa using hv, Or.inr ⟨a0, a1, m, h0, h1,
      not_not.mp hown, hm, not_not.mp hpt, not_not.mp hlenEq, (congrArg Prod.snd h).symm⟩⟩
  · rename_i hp hv hlen
    exact ⟨by simpa using hp, by simpa using hv,
      Or.inl ⟨by omega, (congrArg Prod.snd h).symm⟩⟩

/-- Creation mode on an already-initialized record stops with
`AccountAlreadyInitialized`. -/
theorem verify_already_initialized (o : VerifyOracle) (pt : ProofType)
    (programId : Pubkey) (s : Pstate) (a0 a1 : Account) (m : ProofContextStateMeta)
    (h0 : s.accounts[0]? = some a0) (h1 : s.accounts[1]? = some a1)
    (hp : o.parseOk = true) (hv : o.verifyOk = true)
    (hown : a0.owner = programId)
    (hm : ProofContextStateMeta.try_from_bytes a0.data = Except.ok m)
    (hpt : m.proof_type ≠ ProofType.Uninitialized.tag) :
    processVerifyProof o pt programId s = (.error .AccountAlreadyInitialized, s) := by
  have hlen : 0 < s.accounts.length := by
    rcases List.getElem?_eq_some.mp h0 with ⟨hlt, -⟩
    omega
  simp [processVerifyProof, h0, h1, hp, hv, hlen, hown, hm, hpt]

/-- Creation mode with every check passing performs the single write. -/
theorem verify_creation_succeeds (o : VerifyOracle) (pt : ProofType)
    (programId : Pubkey) (s : Pstate) (a0 a1 : Account) (m : ProofContextStateMeta)
    (h0 : s.accounts[0]? = some a0) (h1 : s.accounts[1]? = some a1)
    (hp : o.parseOk = true) (hv : o.verifyOk = true)
    (hown : a0.owner = programId)
    (hm : ProofContextStateMeta.try_from_bytes a0.data = Except.ok m)
    (hpt : m.proof_type = ProofType.Uninitialized.tag)
    (hlen : a0.data.length = (ProofContextState.encode a1.key pt o.contextData).length) :
    processVerifyProof o pt programId s = (.ok (), verifySuccessState o pt a0 a1 s) := by
  have hpos : 0 < s.accounts.length := by
    rcases List.getElem?_eq_some.mp h0 with ⟨hlt, -⟩
    omega
  simp [processVerifyProof, verifySuccessState, h0, h1, hp, hv, hpos, hown, hm, hpt, hlen]

/-- The close path stops at the signer check. -/
theorem close_not_signer (programId systemId : Pubkey) (s : Pstate) (c : Account)
    (h2 : s.accounts[2]? = some c) (hsig : c.is_signer = false) :
    processCloseProofContext programId systemId s =
      (.error .MissingRequiredSignature, s) := by
  simp [processCloseProofContext, h2, hsig]

/-- The close path stops at the distinctness check. -/
theorem close_same_key (programId systemId : Pubkey) (s : Pstate) (c a0 a1 : Account)
    (h2 : s.accounts[2]? = some c) (hsig : c.is_signer = true)
    (h0 : s.accounts[0]? = some a0) (h1 : s.accounts[1]? = some a1)
    (hkey : a0.key = a1.key) :
    processCloseProofContext programId systemId s =
      (.error .InvalidInstructionData, s) := by
  simp [processCloseProofContext, h2, hsig, h0, h1, hkey]

/-- The close path stops at the stored-authority check. -/
theorem close_wrong_authority (programId systemId : Pubkey) (s : Pstate)
    (c a0 a1 : Account) (m : ProofContextStateMeta)
    (h2 : s.accounts[2]? = some c) (hsig : c.is_signer = true)
    (h0 : s.accounts[0]? = some a0) (h1 : s.accounts[1]? = some a1)
    (hkey : a0.key ≠ a1.key)
    (hm : ProofContextStateMeta.try_from_bytes a0.data = Except.ok m)
    (hauth : c.key ≠ m.context_state_authority) :
    processCloseProofContext programId systemId s =
      (.error .InvalidAccountOwner, s) := by
  simp [processCloseProofContext, h2, hsig, h0, h1, hkey, hm, hauth]

/-- Decoding the header of a freshly encoded record recovers the authority
and the proof-type tag. -/
theorem try_from_bytes_encode (a : Pubkey) (pt : ProofType) (ctx : List Nat)
    (h : a.length = 32) :
    ProofContextStateMeta.try_from_bytes (ProofContextState.encode a pt ctx) =
      Except.ok ⟨a, pt.tag⟩ := by
  unfold ProofContextStateMeta.try_from_bytes ProofContextState.encode
  rw [List.getElem?_append_right (by omega), h]
  simp [List.take_left' h]

/-- Only the sentinel proof type has the sentinel tag. -/
theorem ProofType.tag_ne_uninit {pt : ProofType} (h : pt ≠ .Uninitialized) :
    pt.tag ≠ ProofType.Uninitialized.tag := by
  cases pt
  · exact absurd rfl h
  all_goals decide

/-! ### Claim theorems -/

/-- C3: every verify or close call that returns an error at any validation
check leaves every account referenced by the instruction byte-for-byte
unchanged afterward — data, balance and owner keep their prior values
(the whole state, accounts included, is returned untouched).  In the
verify path all checks precede the single write of account 0's data, so an
error implies that write never ran. -/
theorem failed_call_leaves_state_unchanged (o : VerifyOracle) (pt : ProofType)
    (programId systemId : Pubkey) (s s₁ s₂ : Pstate) (e₁ e₂ : InstructionError) :
    (processVerifyProof o pt programId s = (.error e₁, s₁) → s₁ = s) ∧
    (processCloseProofContext programId systemId s = (.error e₂, s₂) → s₂ = s) :=
  ⟨processVerifyProof_error_eq o pt programId s s₁ e₁,
   processCloseProofContext_error_eq programId systemId s s₂ e₂⟩

/-- Witness for C3 at a verify call whose proof data does not parse and a
close call whose account 2 did not sign. -/
theorem failed_call_leaves_state_unchanged_witness :
    processVerifyProof ⟨false, true, []⟩ .Transfer samplePid sUninit =
      (.error .InvalidInstructionData, sUninit) ∧
    processCloseProofContext samplePid sampleSys sCloseNonSigner =
      (.error .MissingRequiredSignature, sCloseNonSigner) ∧
    sUninit = sUninit ∧ sCloseNonSigner = sCloseNonSigner :=
  ⟨by decide, by decide,
   (failed_call_leaves_state_unchanged ⟨false, true, []⟩ .Transfer samplePid sampleSys
      sUninit sUninit sCloseNonSigner .InvalidInstructionData
      .MissingRequiredSignature).1 (by decide),
   (failed_call_leaves_state_unchanged ⟨false, true, []⟩ .Transfer samplePid sampleSys
      sCloseNonSigner sUninit sCloseNonSigner .InvalidInstructionData
      .MissingRequiredSignature).2 (by decide)⟩

/-- Counterexample for C5 as stated: when accounts 0 and 1 coincide but
account 2 did not sign, the close call fails with
`MissingRequiredSignature`, not `InvalidInstructionData` — the signer check
runs first, so the failure is not independent of whether account 2
signed. -/
theorem close_self_nonsigner_counterexample :
    ctxInit.key = ctxInit.key ∧
    processCloseProofContext samplePid sampleSys ⟨[ctxInit, ctxInit, nonSignerAccount], 0⟩ =
      (.error .MissingRequiredSignature, ⟨[ctxInit, ctxInit, nonSignerAccount], 0⟩) ∧
    InstructionError.MissingRequiredSignature ≠ InstructionError.InvalidInstructionData := by
  decide

/-- C5 (amended: provided account 2 is a signer): a close call in which
accounts 0 and 1 share one identity fails with `InvalidInstructionData`
regardless of whether the signer matches the stored authority — no
hypothesis on account 0's data or stored authority is needed, so the
distinctness check precedes the authority comparison. -/
theorem close_self_transfer_rejected (programId systemId : Pubkey) (s : Pstate)
    (c a0 a1 : Account)
    (h2 : s.accounts[2]? = some c) (hsig : c.is_signer = true)
    (h0 : s.accounts[0]? = some a0) (h1 : s.accounts[1]? = some a1)
    (hkey : a0.key = a1.key) :
    processCloseProofContext programId systemId s =
      (.error .InvalidInstructionData, s) :=
  close_same_key programId systemId s c a0 a1 h2 hsig h0 h1 hkey

/-- Witness for C5: a signed self-close on a record whose stored authority
does not match the signer still fails with `InvalidInstructionData`. -/
theorem close_self_transfer_rejected_witness :
    processCloseProofContext samplePid sampleSys ⟨[ctxInit, ctxInit, signerAccount], 0⟩ =
      (.error .InvalidInstructionData, ⟨[ctxInit, ctxInit, signerAccount], 0⟩) :=
  close_self_transfer_rejected samplePid sampleSys ⟨[ctxInit, ctxInit, signerAccount], 0⟩
    signerAccount ctxInit ctxInit rfl (by decide) rfl rfl rfl

/-- C6: an invocation whose stack height is not the transaction level
fails with `UnsupportedProgramId` and returns the state untouched — the
compute budget is not charged, no account is read or changed, and the
conclusion holds for arbitrary (even unparseable) instruction data, so the
tag is never parsed. -/
theorem nested_invocation_rejected (o : VerifyOracle) (programId systemId : Pubkey)
    (stackHeight : Nat) (instructionData : List Nat) (s : Pstate)
    (h : stackHeight ≠ TRANSACTION_LEVEL_STACK_HEIGHT) :
    processInstruction o programId systemId stackHeight instructionData s =
      (.error .UnsupportedProgramId, s) := by
  simp [processInstruction, h]

/-- Witness for C6 at stack height 2 with garbage instruction data. -/
theorem nested_invocation_rejected_witness :
    processInstruction okOracle samplePid sampleSys 2 [255] sCloseOk =
      (.error .UnsupportedProgramId, sCloseOk) :=
  nested_invocation_rejected okOracle samplePid sampleSys 2 [255] sCloseOk (by decide)

/-- C7: a verify call supplied with zero instruction accounts whose proof
data parses and verifies returns success with the state untouched — no
account is read or mutated. -/
theorem verify_only_mode_no_effect (o : VerifyOracle) (pt : ProofType)
    (programId : Pubkey) (s : Pstate)
    (h0 : s.accounts.length = 0) (hp : o.parseOk = true) (hv : o.verifyOk = true) :
    processVerifyProof o pt programId s = (.ok (), s) := by
  simp [processVerifyProof, h0, hp, hv]

/-- Witness for C7: a valid pubkey-validity proof with zero accounts. -/
theorem verify_only_mode_no_effect_witness :
    processVerifyProof okOracle .PubkeyValidity samplePid ⟨[], 7⟩ = (.ok (), ⟨[], 7⟩) :=
  verify_only_mode_no_effect okOracle .PubkeyValidity samplePid ⟨[], 7⟩ rfl rfl rfl

/-- C8: in creation mode, when every earlier check passes but the encoded
record's byte length differs from account 0's current data length, the
call fails with `InvalidAccountData` and the state — account 0's data and
its length included — is returned untouched: nothing is resized or
written. -/
theorem verify_length_mismatch_rejected (o : VerifyOracle) (pt : ProofType)
    (programId : Pubkey) (s : Pstate) (a0 a1 : Account) (m : ProofContextStateMeta)
    (h0 : s.accounts[0]? = some a0) (h1 : s.accounts[1]? = some a1)
    (hp : o.parseOk = true) (hv : o.verifyOk = true)
    (hown : a0.owner = programId)
    (hm : ProofContextStateMeta.try_from_bytes a0.data = Except.ok m)
    (hpt : m.proof_type = ProofType.Uninitialized.tag)
    (hlen : a0.data.length ≠ (ProofContextState.encode a1.key pt o.contextData).length) :
    processVerifyProof o pt programId s = (.error .InvalidAccountData, s) := by
  have hpos : 0 < s.accounts.length := by
    rcases List.getElem?_eq_some.mp h0 with ⟨hlt, -⟩
    omega
  simp [processVerifyProof, h0, h1, hp, hv, hpos, hown, hm, hpt, hlen]

/-- Witness for C8: a 34-byte uninitialized account against a 33-byte
encoded record. -/
theorem verify_length_mismatch_rejected_witness :
    processVerifyProof okOracle .Transfer samplePid ⟨[ctxLong, authAccount], 0⟩ =
      (.error .InvalidAccountData, ⟨[ctxLong, authAccount], 0⟩) :=
  verify_length_mismatch_rejected okOracle .Transfer samplePid ⟨[ctxLong, authAccount], 0⟩
    ctxLong authAccount ⟨List.replicate 32 0, 0⟩ rfl rfl rfl rfl rfl (by decide) rfl
    (by decide)

/-- C9: the context-state codec round-trips — decoding the bytes produced
by the encoder reproduces the authority, the proof type and the context
payload exactly, for every 32-byte authority key. -/
theorem decode_encode_round_trip (a : Pubkey) (t : ProofType) (p : List Nat)
    (h : a.length = 32) :
    ProofContextState.decode (ProofContextState.encode a t p) = some (a, t, p) := by
  unfold ProofContextState.decode ProofContextState.encode
  rw [List.getElem?_append_right (by omega), h]
  have h33 : (33 : Nat) = a.length + 1 := by omega
  simp [List.take_left' h, h33, List.drop_append]
  cases t <;> rfl

/-- Witness for C9 at a concrete 32-byte authority and payload. -/
theorem decode_encode_round_trip_witness :
    ProofContextState.decode (ProofContextState.encode authKey32 .Transfer [1, 2]) =
      some (authKey32, .Transfer, [1, 2]) :=
  decode_encode_round_trip authKey32 .Transfer [1, 2] (by decide)

/-- Counterexample for C1 as stated: with exactly one instruction account
supplied — program-owned and already initialized — the call fails with
`NotEnoughAccountKeys` while borrowing the absent authority account 1,
not with `AccountAlreadyInitialized` (account 1 is borrowed before the
ownership and initialization checks). -/
theorem verify_single_account_counterexample :
    0 < (⟨[ctxInit], 0⟩ : Pstate).accounts.length ∧
    ctxInit.owner = samplePid ∧
    ProofContextStateMeta.try_from_bytes ctxInit.data =
      Except.ok ⟨List.replicate 32 0, 1⟩ ∧
    (1 : Nat) ≠ ProofType.Uninitialized.tag ∧
    processVerifyProof okOracle .PubkeyValidity samplePid ⟨[ctxInit], 0⟩ =
      (.error .NotEnoughAccountKeys, ⟨[ctxInit], 0⟩) ∧
    InstructionError.NotEnoughAccountKeys ≠ InstructionError.AccountAlreadyInitialized := by
  decide

/-- C1 (amended: at least two instruction accounts supplied, so the
authority account 0 and 1 both exist): a verify-with-creation call on a
program-owned account 0 whose decoded metadata has a proof-type tag other
than `Uninitialized` fails with `AccountAlreadyInitialized` and returns
the state — account 0's data included — untouched; consequently a second
verify-with-creation call on the state left by a successful creation with
any non-sentinel proof type never succeeds: it fails with
`AccountAlreadyInitialized`. -/
theorem verify_reinitialization_rejected (o o₂ : VerifyOracle) (pt pt₂ : ProofType)
    (programId : Pubkey) (s : Pstate) :
    (∀ a0 a1 m, s.accounts[0]? = some a0 → s.accounts[1]? = some a1 →
      o.parseOk = true → o.verifyOk = true → a0.owner = programId →
      ProofContextStateMeta.try_from_bytes a0.data = Except.ok m →
      m.proof_type ≠ ProofType.Uninitialized.tag →
      processVerifyProof o pt programId s = (.error .AccountAlreadyInitialized, s)) ∧
    (∀ s' a1, s.accounts[1]? = some a1 → a1.key.length = 32 →
      pt ≠ .Uninitialized →
      processVerifyProof o pt programId s = (.ok (), s') →
      o₂.parseOk = true → o₂.verifyOk = true →
      processVerifyProof o₂ pt₂ programId s' =
        (.error .AccountAlreadyInitialized, s')) := by
  constructor
  · exact fun a0 a1 m h0 h1 hp hv hown hm hpt =>
      verify_already_initialized o pt programId s a0 a1 m h0 h1 hp hv hown hm hpt
  · intro s' a1 h1 hkey32 hptne hfirst hp2 hv2
    obtain ⟨-, -, hcase⟩ := verify_ok_spec o pt programId s s' hfirst
    rcases hcase with ⟨hlen0, -⟩ | ⟨a0, a1', m, h0, h1', hown, hm, -, -, hs'⟩
    · rcases List.getElem?_eq_some.mp h1 with ⟨hlt, -⟩
      omega
    · rw [h1] at h1'
      injection h1' with he
      subst he
      have hpos : 0 < s.accounts.length := by
        rcases List.getElem?_eq_some.mp h0 with ⟨hlt, -⟩
        omega
      subst hs'
      refine verify_already_initialized o₂ pt₂ programId _
        ({ a0 with data := ProofContextState.encode a1.key pt o.contextData }) a1
        ⟨a1.key, pt.tag⟩ ?_ ?_ hp2 hv2 hown ?_ ?_
      · show (s.accounts.set 0 _)[0]? = some _
        exact List.getElem?_set_self hpos
      · show (s.accounts.set 0 _)[1]? = some a1
        rw [List.getElem?_set_ne (by omega)]
        exact h1
      · exact try_from_bytes_encode a1.key pt o.contextData hkey32
      · exact ProofType.tag_ne_uninit hptne

/-- Witness for C1: a creation call on an initialized record fails, and
creating on an uninitialized record then creating again also fails, both
with `AccountAlreadyInitialized`. -/
theorem verify_reinitialization_rejected_witness :
    processVerifyProof okOracle .PubkeyValidity samplePid sInit =
      (.error .AccountAlreadyInitialized, sInit) ∧
    processVerifyProof okOracle .Transfer samplePid sUninit = (.ok (), sAfter) ∧
    processVerifyProof okOracle .PubkeyValidity samplePid sAfter =
      (.error .AccountAlreadyInitialized, sAfter) :=
  ⟨(verify_reinitialization_rejected okOracle okOracle .PubkeyValidity .PubkeyValidity
      samplePid sInit).1 ctxInit authAccount ⟨List.replicate 32 0, 1⟩ rfl rfl rfl rfl rfl
      (by decide) (by decide),
   by decide,
   (verify_reinitialization_rejected okOracle okOracle .Transfer .PubkeyValidity
      samplePid sUninit).2 sAfter authAccount rfl (by decide) (by decide) (by decide)
      rfl rfl⟩

/-- Counterexample for C2 as stated: account 2 signs and its key differs
from the stored authority of account 0's decoded metadata, but because
accounts 0 and 1 coincide the call fails with `InvalidInstructionData`,
not `InvalidAccountOwner` — the distinctness check runs first. -/
theorem close_nondistinct_authority_counterexample :
    signerAccount.is_signer = true ∧
    ProofContextStateMeta.try_from_bytes ctxInit.data =
      Except.ok ⟨List.replicate 32 0, 1⟩ ∧
    signerAccount.key ≠ (List.replicate 32 0 : Pubkey) ∧
    processCloseProofContext samplePid sampleSys ⟨[ctxInit, ctxInit, signerAccount], 0⟩ =
      (.error .InvalidInstructionData, ⟨[ctxInit, ctxInit, signerAccount], 0⟩) ∧
    InstructionError.InvalidInstructionData ≠ InstructionError.InvalidAccountOwner := by
  decide

/-- C2 (amended: the authority-mismatch error is guaranteed only when
accounts 0 and 1 are distinct and account 0's header decodes): a close
whose account 2 did not sign fails with `MissingRequiredSignature`; a
close whose signing account 2 has a key differing from the stored
authority fails with `InvalidAccountOwner` provided accounts 0 and 1 are
distinct; and the destruction and balance transfer happen only when the
signing account 2's key equals the stored authority. -/
theorem close_authority_checks (programId systemId : Pubkey) (s : Pstate) :
    (∀ c, s.accounts[2]? = some c → c.is_signer = false →
      processCloseProofContext programId systemId s =
        (.error .MissingRequiredSignature, s)) ∧
    (∀ c a0 a1 m, s.accounts[2]? = some c → c.is_signer = true →
      s.accounts[0]? = some a0 → s.accounts[1]? = some a1 → a0.key ≠ a1.key →
      ProofContextStateMeta.try_from_bytes a0.data = Except.ok m →
      c.key ≠ m.context_state_authority →
      processCloseProofContext programId systemId s =
        (.error .InvalidAccountOwner, s)) ∧
    (∀ s' c, processCloseProofContext programId systemId s = (.ok (), s') →
      s.accounts[2]? = some c →
      c.is_signer = true ∧ ∃ a0 m, s.accounts[0]? = some a0 ∧
        ProofContextStateMeta.try_from_bytes a0.data = Except.ok m ∧
        c.key = m.context_state_authority) := by
  refine ⟨fun c h2 hsig => close_not_signer programId systemId s c h2 hsig,
    fun c a0 a1 m h2 hsig h0 h1 hkey hm hauth =>
      close_wrong_authority programId systemId s c a0 a1 m h2 hsig h0 h1 hkey hm hauth,
    fun s' c h hc => ?_⟩
  obtain ⟨c', a0, a1, m, h2', h0, -, hsig, -, hm, hauth, -, -, -⟩ :=
    close_ok_spec programId systemId s s' h
  rw [hc] at h2'
  injection h2' with he
  subst he
  exact ⟨hsig, a0, m, h0, hm, hauth⟩

/-- Witness for C2: the three parts at concrete close calls — an unsigned
close, a signed close under a foreign key, and a successful close by the
stored authority. -/
theorem close_authority_checks_witness :
    processCloseProofContext samplePid sampleSys sCloseNonSigner =
      (.error .MissingRequiredSignature, sCloseNonSigner) ∧
    processCloseProofContext samplePid sampleSys sCloseWrongAuth =
      (.error .InvalidAccountOwner, sCloseWrongAuth) ∧
    (authSigner.is_signer = true ∧ ∃ a0 m, sCloseOk.accounts[0]? = some a0 ∧
      ProofContextStateMeta.try_from_bytes a0.data = Except.ok m ∧
      authSigner.key = m.context_state_authority) :=
  ⟨(close_authority_checks samplePid sampleSys sCloseNonSigner).1 nonSignerAccount rfl rfl,
   (close_authority_checks samplePid sampleSys sCloseWrongAuth).2.1 signerAccount
     ctxStored destAccount ⟨authKey32, 4⟩ rfl rfl rfl rfl (by decide) (by decide)
     (by decide),
   (close_authority_checks samplePid sampleSys sCloseOk).2.2
     ⟨[⟨[2], sampleSys, 0, [], false⟩, ⟨[3], [7], 15, [], false⟩, authSigner], 0⟩
     authSigner (by decide) rfl⟩

/-- C4: a close call performs the balance transfer and the destruction of
account 0 only if account 0 is owned by this program: a successful close
implies program ownership of account 0, and a close targeting an account
with a foreign owner returns an error with the state untouched. -/
theorem close_requires_program_ownership (programId systemId : Pubkey) (s : Pstate) :
    (∀ s', processCloseProofContext programId systemId s = (.ok (), s') →
      ∃ a0, s.accounts[0]? = some a0 ∧ a0.owner = programId) ∧
    (∀ a0 r s', s.accounts[0]? = some a0 → a0.owner ≠ programId →
      processCloseProofContext programId systemId s = (r, s') →
      r ≠ .ok () ∧ s' = s) := by
  constructor
  · intro s' h
    obtain ⟨c, a0, a1, m, -, h0, -, -, -, -, -, hown, -, -⟩ :=
      close_ok_spec programId systemId s s' h
    exact ⟨a0, h0, hown⟩
  · intro a0 r s' h0 hown h
    match r with
    | .error e =>
        exact ⟨fun hcon => Except.noConfusion hcon,
          processCloseProofContext_error_eq programId systemId s s' e h⟩
    | .ok () =>
        obtain ⟨c, a0', a1, m, -, h0', -, -, -, -, -, hown', -, -⟩ :=
          close_ok_spec programId systemId s s' h
        rw [h0] at h0'
        injection h0' with he
        subst he
        exact absurd hown' hown

/-- Witness for C4: a close of a record account owned by a foreign program
fails with the state untouched even though signer, distinctness and
authority checks would all pass. -/
theorem close_requires_program_ownership_witness :
    ctxForeign.owner ≠ samplePid ∧
    ((.error .InvalidAccountOwner : Except InstructionError Unit) ≠ .ok () ∧
      (⟨[ctxForeign, destAccount, authSigner], 0⟩ : Pstate) =
        ⟨[ctxForeign, destAccount, authSigner], 0⟩) :=
  ⟨by decide,
   (close_requires_program_ownership samplePid sampleSys
      ⟨[ctxForeign, destAccount, authSigner], 0⟩).2 ctxForeign
      (.error .InvalidAccountOwner) ⟨[ctxForeign, destAccount, authSigner], 0⟩
      rfl (by decide) (by decide)⟩

/-- C10: creation mode never requires account 1 to sign — with account 1
explicitly a non-signer and every check passing, the call succeeds and
writes a record whose decoded authority is account 1's key; and no close
of a record carrying that authority can succeed when the signing account's
key differs from it, so the non-signing key is the sole identity permitted
to close the record. -/
theorem verify_records_nonsigning_authority (o : VerifyOracle) (pt : ProofType)
    (programId systemId : Pubkey) (s : Pstate) (a0 a1 : Account)
    (m : ProofContextStateMeta)
    (h0 : s.accounts[0]? = some a0) (h1 : s.accounts[1]? = some a1)
    (hns : a1.is_signer = false)
    (hp : o.parseOk = true) (hv : o.verifyOk = true)
    (hown : a0.owner = programId)
    (hm : ProofContextStateMeta.try_from_bytes a0.data = Except.ok m)
    (hpt : m.proof_type = ProofType.Uninitialized.tag)
    (hlen : a0.data.length = (ProofContextState.encode a1.key pt o.contextData).length)
    (hkey32 : a1.key.length = 32) :
    processVerifyProof o pt programId s = (.ok (), verifySuccessState o pt a0 a1 s) ∧
    ProofContextStateMeta.try_from_bytes
        (ProofContextState.encode a1.key pt o.contextData) =
      Except.ok ⟨a1.key, pt.tag⟩ ∧
    (∀ s₂ s₂' c a0₂, s₂.accounts[2]? = some c → s₂.accounts[0]? = some a0₂ →
      a0₂.data = ProofContextState.encode a1.key pt o.contextData →
      c.key ≠ a1.key →
      processCloseProofContext programId systemId s₂ ≠ (.ok (), s₂')) := by
  refine ⟨verify_creation_succeeds o pt programId s a0 a1 m h0 h1 hp hv hown hm hpt hlen,
    try_from_bytes_encode a1.key pt o.contextData hkey32, ?_⟩
  intro s₂ s₂' c a0₂ h2 h02 hdata hck h
  obtain ⟨c', a0', a1', m', h2', h0', -, -, -, hm', hauth', -, -, -⟩ :=
    close_ok_spec programId systemId s₂ s₂' h
  rw [h2] at h2'
  injection h2' with hec
  subst hec
  rw [h02] at h0'
  injection h0' with hea
  subst hea
  rw [hdata, try_from_bytes_encode a1.key pt o.contextData hkey32] at hm'
  injection hm' with hem
  rw [← hem] at hauth'
  exact hck hauth'

/-- Witness for C10: a non-signing authority account, a successful
creation recording its key, and the impossibility of a close signed by a
different key. -/
theorem verify_records_nonsigning_authority_witness :
    authAccount.is_signer = false ∧
    processVerifyProof okOracle .Transfer samplePid sUninit =
      (.ok (), verifySuccessState okOracle .Transfer ctxUninit authAccount sUninit) ∧
    ProofContextStateMeta.try_from_bytes
        (ProofContextState.encode authAccount.key .Transfer []) =
      Except.ok ⟨authKey32, 4⟩ ∧
    processCloseProofContext samplePid sampleSys sCloseWrongAuth ≠
      (.ok (), sCloseWrongAuth) := by
  have h := verify_records_nonsigning_authority okOracle .Transfer samplePid sampleSys
    sUninit ctxUninit authAccount ⟨List.replicate 32 0, 0⟩ rfl rfl rfl rfl rfl rfl
    (by decide) rfl (by decide) (by decide)
  exact ⟨rfl, h.1, h.2.1, h.2.2 sCloseWrongAuth sCloseWrongAuth signerAccount ctxStored
    rfl rfl rfl (by decide)⟩

end ZkTokenProof
